import Mathlib

/-!
Verification development for `nsctl/processes.py`: the command-assembly /
escalation / execution pipeline, the process-tree walker and the liveness
probe. Python functions are shallowly embedded as Lean functions; the OS
surface (search-path resolution, user/group lookup, the privilege policy,
foreground process results, the detached-process wait, the process table)
is passed in explicitly as an environment record, and observable effects
(spawned argument vectors, printed lines) are returned as traces.
-/

/-- Escalation helper kinds; `Escalate = Literal["sudo", "pkexec", None]`
in the source is modelled as `Option EscalateKind`. -/
inductive EscalateKind
  | sudo
  | pkexec
deriving DecidableEq, Repr

/-- The helper's program name, as passed to `shutil.which`. -/
def EscalateKind.progName : EscalateKind → String
  | .sudo => "sudo"
  | .pkexec => "pkexec"

abbrev Escalate := Option EscalateKind

/-- Modelled from the spec: the namespace-target descriptor (`NSInfo`, from
`nsctl.config`, not under `src/`) exposes the target pid and the set of
namespace operation kinds used to query the privilege policy. -/
structure NSInfo where
  pid : Nat
  namespaces : List String
deriving DecidableEq, Repr

/-- A raw command: either a shell-style string (tokenized with
`shlex.split`) or an already-tokenized argument list. -/
inductive Cmd
  | str (s : String)
  | args (l : List String)
deriving DecidableEq, Repr

/-- The errors the pipeline can raise. Message payloads keep only the
static part of the corresponding Python exception text. -/
inductive ExecErr
  | valueError (msg : String)
  | toolNotFound (tool : String)
  | calledProcess (returncode : Int) (stdout : Option String)
  | unexpectedOutcome (expected : String)
  | immediateExit (returncode : Int)
deriving DecidableEq, Repr

/-- A live detached-process handle (`subprocess.Popen`), recording the
argument vector it was spawned with. -/
structure Popen where
  args : List String
deriving DecidableEq, Repr

/-- The value `_exec_cmd` returns: `None` (dry run), a
`CompletedProcess` (return code plus captured stdout, `none` when output
was not captured), or a `Popen` handle. -/
inductive Outcome
  | noneOut
  | completed (returncode : Int) (stdout : Option String)
  | popen (p : Popen)
deriving DecidableEq, Repr

/-- The OS / collaborator surface consumed by the pipeline.
`which` models `shutil.which` (search-path resolution to a helper path);
`getUid` / `getGid` model `nsctl.utils.get_uid` / `get_gid` (the
IdentityResolver); `checkOps` models `nsctl.utils.check_ops` (the
PrivilegePolicy: `true` when the namespace operations need no elevation);
`runFg` gives the (return code, stdout) a foreground `subprocess.run` of
an argument vector produces; `waitOutcome` gives the result of
`Popen.wait(timeout=wait_time)` on the detached process: `some rc` when
it exits inside the grace period with code `rc`, `none` when the wait
ends in `TimeoutExpired`; `cwd` models `os.getcwd()`. -/
structure Env where
  which : String → Option String
  getUid : String → Nat
  getGid : String → Nat
  checkOps : List String → Bool
  runFg : List String → Int × String
  waitOutcome : Option Int
  cwd : String

/-- A call's result together with its observable effect traces: the
argument vectors handed to `subprocess.run` / `subprocess.Popen`, and the
lines printed. -/
structure ExecResult (α : Type) where
  result : Except ExecErr α
  spawned : List (List String)
  printed : List String
deriving Repr

def tabChar : Char := Char.ofNat 9
def nlChar : Char := Char.ofNat 10
def crChar : Char := Char.ofNat 13
def dquoteChar : Char := Char.ofNat 34
def squoteChar : Char := Char.ofNat 39
def bslashChar : Char := Char.ofNat 92

/-- Whitespace characters recognised by `shlex` (` \t\r\n`). -/
def isWs (c : Char) : Bool :=
  c = ' ' || c = tabChar || c = nlChar || c = crChar

/-- Lexer state for `shlexSplit`: outside quotes, inside `'...'`, inside
`"..."`. -/
inductive LexState
  | normal
  | inSingle
  | inDouble
deriving DecidableEq, Repr

/-- Worker for `shlexSplit`: remaining characters, the token being built
(`none` when between tokens), the finished tokens. POSIX rules: whitespace
separates tokens; single quotes are fully literal; inside double quotes a
backslash escapes only the double quote and the backslash; outside quotes
a backslash escapes the next character. -/
def shlexAux (st : LexState) : List Char → Option (List Char) → List (List Char) → List (List Char)
  | [], none, toks => toks
  | [], some t, toks => toks ++ [t]
  | c :: rest, cur, toks =>
    match st with
    | .normal =>
      if isWs c then
        match cur with
        | some t => shlexAux .normal rest none (toks ++ [t])
        | none => shlexAux .normal rest none toks
      else if c = squoteChar then
        shlexAux .inSingle rest (some (cur.getD [])) toks
      else if c = dquoteChar then
        shlexAux .inDouble rest (some (cur.getD [])) toks
      else if c = bslashChar then
        match rest with
        | d :: rest2 => shlexAux .normal rest2 (some (cur.getD [] ++ [d])) toks
        | [] => shlexAux .normal [] cur toks
      else
        shlexAux .normal rest (some (cur.getD [] ++ [c])) toks
    | .inSingle =>
      if c = squoteChar then
        shlexAux .normal rest cur toks
      else
        shlexAux .inSingle rest (some (cur.getD [] ++ [c])) toks
    | .inDouble =>
      if c = dquoteChar then
        shlexAux .normal rest cur toks
      else if c = bslashChar then
        match rest with
        | d :: rest2 =>
          if d = dquoteChar || d = bslashChar then
            shlexAux .inDouble rest2 (some (cur.getD [] ++ [d])) toks
          else
            shlexAux .inDouble rest2 (some (cur.getD [] ++ [bslashChar, d])) toks
        | [] => shlexAux .inDouble [] (some (cur.getD [] ++ [bslashChar])) toks
      else
        shlexAux .inDouble rest (some (cur.getD [] ++ [c])) toks

/-- Model of `shlex.split` in POSIX mode, as used on string-form commands. -/
def shlexSplit (s : String) : List String :=
  (shlexAux .normal s.data none []).map List.asString

/-- Tokenization step of `_exec_cmd`: `shlex.split` on a string, the list
used as-is. -/
def tokenize : Cmd → List String
  | .str s => shlexSplit s
  | .args l => l

/-- Success predicate of `shlex.split` in POSIX mode: Python raises
`ValueError` ("No closing quotation") when the input ends inside a quote
and ("No escaped character") when it ends right after an escape
character; this runs the same state machine as `shlexAux` and reports
whether the input ends cleanly in the unquoted state. `shlexSplit`
coincides with `shlex.split` exactly on the strings this accepts. -/
def shlexOkAux (st : LexState) : List Char → Bool
  | [] =>
    match st with
    | .normal => true
    | .inSingle => false
    | .inDouble => false
  | c :: rest =>
    match st with
    | .normal =>
      if isWs c then shlexOkAux .normal rest
      else if c = squoteChar then shlexOkAux .inSingle rest
      else if c = dquoteChar then shlexOkAux .inDouble rest
      else if c = bslashChar then
        match rest with
        | _ :: rest2 => shlexOkAux .normal rest2
        | [] => false
      else shlexOkAux .normal rest
    | .inSingle =>
      if c = squoteChar then shlexOkAux .normal rest
      else shlexOkAux .inSingle rest
    | .inDouble =>
      if c = dquoteChar then shlexOkAux .normal rest
      else if c = bslashChar then
        match rest with
        | _ :: rest2 => shlexOkAux .inDouble rest2
        | [] => false
      else shlexOkAux .inDouble rest

/-- Whether `shlex.split` accepts the string without raising. -/
def shlexOk (s : String) : Bool := shlexOkAux .normal s.data

/-- Whether the source's tokenization step (line 46-49) succeeds: a
string form must satisfy `shlexOk`; an already-tokenized list always
tokenizes (no `shlex` call is made for it). -/
def cmdTokenizes : Cmd → Bool
  | .str s => shlexOk s
  | .args _ => true

/-- Space-joined rendering, `" ".join(cmd_args)`. -/
def joinSpace (l : List String) : String := String.intercalate " " l

/-- The `nsenter` prefix built by `_exec_cmd` when `ns_pid` is set:
`["nsenter", "-t", str(pid), "--all"]`, then `--wd=<dir>` when
`working_dir` is truthy, then `--setuid=` and `--setgid=` when `as_user`
is truthy, closed by `"--"`. -/
def ns_cmd (env : Env) (pid : Nat) (working_dir : Option String) (as_user : Option String) : List String :=
  ["nsenter", "-t", toString pid, "--all"]
    ++ (match working_dir with
        | some wd => if wd = "" then [] else ["--wd=" ++ wd]
        | none => [])
    ++ (match as_user with
        | some u =>
          if u = "" then []
          else ["--setuid=" ++ toString (env.getUid u), "--setgid=" ++ toString (env.getGid u)]
        | none => [])
    ++ ["--"]

/-- Argument assembly of `_exec_cmd` (lines 46-68): tokenize, prepend the
`nsenter` entry when `ns_pid` is set, then prepend the resolved escalation
helper plus `-n` when `escalate` is set, failing when `shutil.which`
cannot find the helper. -/
def assembledArgs (env : Env) (cmd : Cmd) (ns_pid : Option Nat)
    (working_dir : Option String) (escalate : Escalate) (as_user : Option String) :
    Except ExecErr (List String) :=
  let cmd_args := tokenize cmd
  let cmd_args :=
    match ns_pid with
    | some pid => ns_cmd env pid working_dir as_user ++ cmd_args
    | none => cmd_args
  match escalate with
  | some e =>
    match env.which e.progName with
    | none => .error (.toolNotFound e.progName)
    | some helper => .ok ([helper, "-n"] ++ cmd_args)
  | none => .ok cmd_args

/-- The bottom-level executor `_exec_cmd`: validate the flag combination,
assemble the argument vector, then dispatch on dry-run / detach /
foreground. The `passthrough` flag only rewires the detached process's
standard streams and leaves the modelled observables unchanged. -/
def _exec_cmd (env : Env) (cmd : Cmd)
    (detach capture_output check dry_run verbose : Bool)
    (ns_pid : Option Nat) (working_dir : Option String)
    (escalate : Escalate) (as_user : Option String)
    (passthrough : Bool) : ExecResult Outcome :=
  if detach && capture_output then
    ⟨.error (.valueError "Cannot use detach=True with capture_output=True."), [], []⟩
  else
    match assembledArgs env cmd ns_pid working_dir escalate as_user with
    | .error e => ⟨.error e, [], []⟩
    | .ok cmd_args =>
      if dry_run then
        ⟨.ok .noneOut, [], ["DRY-RUN: " ++ joinSpace cmd_args]⟩
      else if detach then
        ⟨.ok (.popen ⟨cmd_args⟩), [cmd_args],
          if verbose then ["DETACH: " ++ joinSpace cmd_args] else []⟩
      else
        let r := env.runFg cmd_args
        let stdoutVal := if capture_output then some r.2 else none
        ⟨if check && r.1 != 0 then .error (.calledProcess r.1 stdoutVal)
          else .ok (.completed r.1 stdoutVal),
          [cmd_args],
          if verbose then ["RUN: " ++ joinSpace cmd_args] else []⟩

/-- `handle_ns`: with no namespace target, pass `escalate` through; with a
target and no explicit escalation, consult the privilege policy
(`check_ops`) and default to `sudo` when the operations need elevation;
always return the target's pid. -/
def handle_ns (env : Env) (ns : Option NSInfo) (escalate : Escalate) : Option Nat × Escalate :=
  match ns with
  | none => (none, escalate)
  | some n =>
    let esc :=
      match escalate with
      | none => if env.checkOps n.namespaces then none else some .sudo
      | some e => some e
    (some n.pid, esc)

/-- Sanity check of the tokenizer on a single word. -/
theorem shlexSplit_single : shlexSplit "ls" = ["ls"] := by decide

/-- Sanity check of the tokenizer on plain word splitting. -/
theorem shlexSplit_words : shlexSplit "echo hi there" = ["echo", "hi", "there"] := by decide

/-- Sanity check of `shlexOk`: plain words are accepted. -/
theorem shlexOk_plain : shlexOk "echo hi" = true := by decide

/-- Sanity check of `shlexOk`: an unclosed double quote is rejected, as
`shlex.split` raises "No closing quotation" on it. -/
theorem shlexOk_unclosed_quote : shlexOk (List.asString ['l', 's', ' ', dquoteChar, 'x']) = false := by
  decide

/-- Sanity check of `shlexOk`: a trailing escape character is rejected, as
`shlex.split` raises "No escaped character" on it. -/
theorem shlexOk_dangling_escape : shlexOk (List.asString ['l', 's', bslashChar]) = false := by
  decide

/-- Helper shared by the wrappers: propagate the executor's result through
the runtime-type check `type(result) is subprocess.CompletedProcess`,
projecting a `CompletedProcess` with `f` and turning any other outcome
into the defensive `RuntimeError`. -/
def expectCompleted {α : Type} (f : Int → Option String → α) (r : ExecResult Outcome) : ExecResult α :=
  { result :=
      match r.result with
      | .error e => .error e
      | .ok (.completed rc out) => .ok (f rc out)
      | .ok _ => .error (.unexpectedOutcome "Expected CompletedProcess"),
    spawned := r.spawned, printed := r.printed }

/-- `run_check_output`: foreground run with `capture_output=True`,
`check=True`; returns `result.stdout` after the defensive
`CompletedProcess` type check. -/
def run_check_output (env : Env) (cmd : Cmd) (dry_run verbose : Bool)
    (escalate : Escalate) (ns : Option NSInfo) (as_user : Option String) :
    ExecResult (Option String) :=
  let work_dir := env.cwd
  let p := handle_ns env ns escalate
  expectCompleted (fun _ out => out)
    (_exec_cmd env cmd false true true dry_run verbose p.1 (some work_dir) p.2 as_user false)

/-- `run_code_output`: foreground run with `capture_output=True`,
`check=True`; returns `(result.returncode, result.stdout)` after the
defensive `CompletedProcess` type check. -/
def run_code_output (env : Env) (cmd : Cmd) (dry_run verbose : Bool)
    (escalate : Escalate) (ns : Option NSInfo) (as_user : Option String) :
    ExecResult (Int × Option String) :=
  let work_dir := env.cwd
  let p := handle_ns env ns escalate
  expectCompleted (fun rc out => (rc, out))
    (_exec_cmd env cmd false true true dry_run verbose p.1 (some work_dir) p.2 as_user false)

/-- `run_check_code`: foreground run with `capture_output=False`,
`check=True`; returns `result.returncode` after the defensive
`CompletedProcess` type check. -/
def run_check_code (env : Env) (cmd : Cmd) (dry_run verbose : Bool)
    (escalate : Escalate) (ns : Option NSInfo) (as_user : Option String) :
    ExecResult Int :=
  let work_dir := env.cwd
  let p := handle_ns env ns escalate
  expectCompleted (fun rc _ => rc)
    (_exec_cmd env cmd false false true dry_run verbose p.1 (some work_dir) p.2 as_user false)

/-- `run_code_passthrough`: foreground run with `capture_output=False`,
`check=False`, `passthrough=True`; returns `result.returncode` after the
defensive `CompletedProcess` type check. -/
def run_code_passthrough (env : Env) (cmd : Cmd) (dry_run verbose : Bool)
    (escalate : Escalate) (ns : Option NSInfo) (as_user : Option String) :
    ExecResult Int :=
  let work_dir := env.cwd
  let p := handle_ns env ns escalate
  expectCompleted (fun rc _ => rc)
    (_exec_cmd env cmd false false false dry_run verbose p.1 (some work_dir) p.2 as_user true)

/-- `detach`: run with `detach=True`, `capture_output=False`,
`check=False`; returns the handle after the defensive
`isinstance(result, subprocess.Popen)` check. -/
def detach (env : Env) (cmd : Cmd) (dry_run verbose : Bool)
    (escalate : Escalate) (ns : Option NSInfo) (as_user : Option String) :
    ExecResult Popen :=
  let work_dir := env.cwd
  let p := handle_ns env ns escalate
  let r := _exec_cmd env cmd true false false dry_run verbose p.1 (some work_dir) p.2 as_user false
  { result :=
      match r.result with
      | .error e => .error e
      | .ok (.popen h) => .ok h
      | .ok _ => .error (.unexpectedOutcome "Expected Popen"),
    spawned := r.spawned, printed := r.printed }

/-- `detach_and_check`: detach, then wait up to `wait_time` for the
process; a return code observed inside the window becomes the
"exited immediately" `RuntimeError`, a `TimeoutExpired` means the process
is still alive and its handle is returned. -/
def detach_and_check (env : Env) (cmd : Cmd) (dry_run verbose : Bool)
    (escalate : Escalate) (ns : Option NSInfo) (as_user : Option String) :
    ExecResult Popen :=
  let d := detach env cmd dry_run verbose escalate ns as_user
  { d with
    result :=
      match d.result with
      | .error e => .error e
      | .ok h =>
        match env.waitOutcome with
        | some rc => .error (.immediateExit rc)
        | none => .ok h }

/-- The live OS process table as the walker sees it: `none` when
`psutil.Process(pid)` raises `NoSuchProcess` or `AccessDenied`, otherwise
the pids of the process's direct children. -/
abbrev ProcTable := Nat → Option (List Nat)

/-- `find_bottom_children`: leaves of the process tree rooted at `pid`.
The Python recursion is unbounded and terminates because real process
trees are finite; the embedding makes that explicit with a fuel argument
(`Bounded` below states the fuel suffices). -/
def find_bottom_children (tbl : ProcTable) : Nat → Nat → List Nat
  | 0, _ => []
  | fuel + 1, pid =>
    match tbl pid with
    | none => []
    | some [] => [pid]
    | some children => children.flatMap (fun c => find_bottom_children tbl fuel c)

/-- Fuel bound for the walker: `Bounded tbl pid n` says the recursion of
`find_bottom_children` from `pid` terminates within depth `n`. -/
inductive Bounded (tbl : ProcTable) : Nat → Nat → Prop
  | gone (pid n : Nat) (h : tbl pid = none) : Bounded tbl pid (n + 1)
  | leaf (pid n : Nat) (h : tbl pid = some []) : Bounded tbl pid (n + 1)
  | node (pid n : Nat) (c : Nat) (cs : List Nat) (h : tbl pid = some (c :: cs))
      (hl : ∀ d, d ∈ c :: cs → Bounded tbl d n) : Bounded tbl pid (n + 1)

/-- Specification-side relation, following the spec's words: `p` is a leaf
(childless) descendant process of `root`, where a root with no children is
itself a leaf. -/
inductive LeafDesc (tbl : ProcTable) : Nat → Nat → Prop
  | self (pid : Nat) (h : tbl pid = some []) : LeafDesc tbl pid pid
  | child (pid p : Nat) (l : List Nat) (c : Nat) (h : tbl pid = some l) (hc : c ∈ l)
      (hp : LeafDesc tbl c p) : LeafDesc tbl pid p

/-- The OS surface of `process_exists`: whether `/proc/<pid>` exists,
whether `psutil.Process(pid)` succeeds (no `NoSuchProcess`), and what
`Process.is_running()` reports. -/
structure ProbeEnv where
  procPathExists : Nat → Bool
  psutilOk : Nat → Bool
  isRunning : Nat → Bool

/-- `process_exists`: `some b` models a Python `return` of a boolean,
`none` models the implicit `return None` taken when `/proc/<pid>` does not
exist (the function body ends without a `return`). -/
def process_exists (e : ProbeEnv) (pid : Nat) : Option Bool :=
  if e.procPathExists pid then
    if e.psutilOk pid then some (e.isRunning pid) else some false
  else none

/-- Fixture: an environment whose search path resolves every helper to a
path under `/usr/bin`, with elevation required by the policy. -/
def envResolve : Env where
  which := fun s => some ("/usr/bin/" ++ s)
  getUid := fun _ => 0
  getGid := fun _ => 0
  checkOps := fun _ => false
  runFg := fun _ => (0, "")
  waitOutcome := none
  cwd := "/"

/-- Fixture: an environment whose search path resolves every helper to its
bare name, with elevation required by the policy. -/
def envPlain : Env where
  which := fun s => some s
  getUid := fun _ => 0
  getGid := fun _ => 0
  checkOps := fun _ => false
  runFg := fun _ => (0, "")
  waitOutcome := none
  cwd := "/"

/-- Fixture: an environment with no escalation helpers on the search path. -/
def envNoTool : Env where
  which := fun _ => none
  getUid := fun _ => 0
  getGid := fun _ => 0
  checkOps := fun _ => true
  runFg := fun _ => (0, "")
  waitOutcome := none
  cwd := "/"

/-- Fixture: a benign environment; every foreground command exits 0 with
empty output, no elevation needed, detached waits time out. -/
def env0 : Env where
  which := fun s => some ("/usr/bin/" ++ s)
  getUid := fun _ => 1000
  getGid := fun _ => 1000
  checkOps := fun _ => true
  runFg := fun _ => (0, "")
  waitOutcome := none
  cwd := "/root"

/-- Fixture: like `env0` but the detached process exits with code 0 inside
the grace window. -/
def envWait0 : Env where
  which := fun s => some ("/usr/bin/" ++ s)
  getUid := fun _ => 1000
  getGid := fun _ => 1000
  checkOps := fun _ => true
  runFg := fun _ => (0, "")
  waitOutcome := some 0
  cwd := "/root"

/-- C1: the assembled argument vector always has the layered shape
`[escalation-helper?, namespace-entry?, user-command]`: with both wrappers
requested the helper tokens come first, then the whole `nsenter` entry
prefix, then the user's tokens; dropping either wrapper just drops its
segment, and the user command tokens are the final suffix in every case. -/
theorem assembledArgs_layering (env : Env) (cmd : Cmd) (pid : Nat)
    (wd au : Option String) (e : EscalateKind) (helper : String)
    (hw : env.which e.progName = some helper) :
    assembledArgs env cmd (some pid) wd (some e) au
        = .ok ([helper, "-n"] ++ ns_cmd env pid wd au ++ tokenize cmd)
      ∧ assembledArgs env cmd none wd (some e) au
        = .ok ([helper, "-n"] ++ tokenize cmd)
      ∧ assembledArgs env cmd (some pid) wd none au
        = .ok (ns_cmd env pid wd au ++ tokenize cmd)
      ∧ assembledArgs env cmd none wd none au = .ok (tokenize cmd)
      ∧ tokenize cmd <:+ [helper, "-n"] ++ ns_cmd env pid wd au ++ tokenize cmd
      ∧ tokenize cmd <:+ ns_cmd env pid wd au ++ tokenize cmd := by
  refine ⟨?_, ?_, ?_, ?_, ?_, ?_⟩
  · simp [assembledArgs, hw]
  · simp [assembledArgs, hw]
  · simp [assembledArgs]
  · simp [assembledArgs]
  · exact (List.suffix_append (ns_cmd env pid wd au) (tokenize cmd)).trans
      (List.suffix_append [helper, "-n"] (ns_cmd env pid wd au ++ tokenize cmd))
  · exact List.suffix_append _ _

/-- Witness for C1 at a concrete environment and command. -/
theorem assembledArgs_layering_witness :
    assembledArgs envResolve (.args ["ls"]) (some 42) none (some .sudo) none
        = .ok (["/usr/bin/sudo", "-n"] ++ ns_cmd envResolve 42 none none ++ tokenize (.args ["ls"]))
      ∧ assembledArgs envResolve (.args ["ls"]) none none (some .sudo) none
        = .ok (["/usr/bin/sudo", "-n"] ++ tokenize (.args ["ls"]))
      ∧ assembledArgs envResolve (.args ["ls"]) (some 42) none none none
        = .ok (ns_cmd envResolve 42 none none ++ tokenize (.args ["ls"]))
      ∧ assembledArgs envResolve (.args ["ls"]) none none none none
        = .ok (tokenize (.args ["ls"]))
      ∧ tokenize (.args ["ls"])
          <:+ ["/usr/bin/sudo", "-n"] ++ ns_cmd envResolve 42 none none ++ tokenize (.args ["ls"])
      ∧ tokenize (.args ["ls"]) <:+ ns_cmd envResolve 42 none none ++ tokenize (.args ["ls"]) :=
  assembledArgs_layering envResolve (.args ["ls"]) 42 none none .sudo "/usr/bin/sudo" rfl

/-- C2 counterexample: with pid 1234, command `"ls"`, no explicit
escalation and the policy requiring elevation, the assembled vector's
first token is the search-path resolution of `sudo` (here
`/usr/bin/sudo`), so the vector is not the claimed
`["sudo", "-n", "nsenter", "-t", "1234", "--all", "--", "ls"]`. -/
theorem scenario1234_counterexample :
    envResolve.checkOps ["net", "pid"] = false
      ∧ handle_ns envResolve (some ⟨1234, ["net", "pid"]⟩) none = (some 1234, some .sudo)
      ∧ assembledArgs envResolve (.str "ls") (some 1234) none (some .sudo) none
          = .ok ["/usr/bin/sudo", "-n", "nsenter", "-t", "1234", "--all", "--", "ls"]
      ∧ assembledArgs envResolve (.str "ls") (some 1234) none (some .sudo) none
          ≠ .ok ["sudo", "-n", "nsenter", "-t", "1234", "--all", "--", "ls"] := by
  refine ⟨rfl, rfl, rfl, ?_⟩
  intro h
  rw [show assembledArgs envResolve (.str "ls") (some 1234) none (some .sudo) none
      = .ok ["/usr/bin/sudo", "-n", "nsenter", "-t", "1234", "--all", "--", "ls"] from rfl] at h
  injection h with h
  exact absurd h (by decide)

/-- C2 amended: in the pid-1234 scenario the assembled vector is
`[helper, "-n", "nsenter", "-t", "1234", "--all", "--", "ls"]` where
`helper` is whatever the search path resolves `sudo` to; it equals the
claimed vector exactly when that resolution is the bare name `sudo`. -/
theorem scenario1234_amended (env : Env) (ops : List String) (helper : String)
    (helev : env.checkOps ops = false) (hw : env.which "sudo" = some helper) :
    handle_ns env (some ⟨1234, ops⟩) none = (some 1234, some .sudo)
      ∧ assembledArgs env (.str "ls") (some 1234) none (some .sudo) none
          = .ok [helper, "-n", "nsenter", "-t", "1234", "--all", "--", "ls"] := by
  refine ⟨?_, ?_⟩
  · simp [handle_ns, helev]
  · have hls : tokenize (.str "ls") = ["ls"] := by decide
    have hns : ns_cmd env 1234 none none = ["nsenter", "-t", "1234", "--all", "--"] := rfl
    simp [assembledArgs, EscalateKind.progName, hw, hls, hns]

/-- Witness for the amended C2: a search path resolving `sudo` to itself
reproduces the spec's literal vector. -/
theorem scenario1234_amended_witness :
    handle_ns envPlain (some ⟨1234, []⟩) none = (some 1234, some .sudo)
      ∧ assembledArgs envPlain (.str "ls") (some 1234) none (some .sudo) none
          = .ok ["sudo", "-n", "nsenter", "-t", "1234", "--all", "--", "ls"] :=
  scenario1234_amended envPlain [] "sudo" rfl rfl

/-- C3: `detach=True` together with `capture_output=True` is rejected with
the `ValueError` up front: whatever the rest of the configuration and the
environment, the result is that configuration error, nothing is spawned
and nothing is printed. -/
theorem exec_detach_capture_conflict (env : Env) (cmd : Cmd)
    (check dry_run verbose : Bool) (ns_pid : Option Nat) (wd : Option String)
    (escalate : Escalate) (as_user : Option String) (passthrough : Bool) :
    _exec_cmd env cmd true true check dry_run verbose ns_pid wd escalate as_user passthrough
      = ⟨.error (.valueError "Cannot use detach=True with capture_output=True."), [], []⟩ := rfl

/-- C8: with `dry_run` set and a valid, assemblable configuration, nothing
is spawned, the single printed line is the space-joined assembled vector,
and the returned outcome is the no-process `None`. -/
theorem exec_dry_run (env : Env) (cmd : Cmd) (detach capture_output check verbose : Bool)
    (ns_pid : Option Nat) (wd : Option String) (escalate : Escalate) (as_user : Option String)
    (passthrough : Bool) (args : List String)
    (hv : (detach && capture_output) = false)
    (ha : assembledArgs env cmd ns_pid wd escalate as_user = .ok args) :
    _exec_cmd env cmd detach capture_output check true verbose ns_pid wd escalate as_user passthrough
      = ⟨.ok .noneOut, [], ["DRY-RUN: " ++ joinSpace args]⟩ := by
  simp [_exec_cmd, hv, ha]

/-- Witness for C8 at a concrete environment and command. -/
theorem exec_dry_run_witness :
    _exec_cmd env0 (.args ["echo", "hi"]) false false false true false none none none none false
      = ⟨.ok .noneOut, [], ["DRY-RUN: " ++ joinSpace ["echo", "hi"]]⟩ :=
  exec_dry_run env0 (.args ["echo", "hi"]) false false false false none none none none false
    ["echo", "hi"] rfl rfl

/-- C9 counterexample: a command specification with an escalation mode set
and the helper absent from the search path, but with `detach` and
`capture_output` both set, fails with the `ValueError`, not with the
tool-not-found error: the mutual-exclusion validation runs first. -/
theorem tool_missing_conflict_counterexample :
    envNoTool.which "sudo" = none
      ∧ _exec_cmd envNoTool (.args ["ls"]) true true false false false none none (some .sudo) none false
        = ⟨.error (.valueError "Cannot use detach=True with capture_output=True."), [], []⟩
      ∧ (_exec_cmd envNoTool (.args ["ls"]) true true false false false none none (some .sudo) none false).result
        ≠ .error (.toolNotFound "sudo") := by
  refine ⟨rfl, rfl, ?_⟩
  intro h
  rw [show (_exec_cmd envNoTool (.args ["ls"]) true true false false false none none
      (some .sudo) none false).result
      = .error (.valueError "Cannot use detach=True with capture_output=True.") from rfl] at h
  injection h with h
  exact ExecErr.noConfusion h

/-- C9 amended: for every configuration that passes the detach /
capture-output validation, whose command tokenizes (an already-tokenized
list, or a string `shlex.split` accepts), and which resolves no user
identity (no `as_user`, or no namespace target so `as_user` is ignored),
an escalation mode whose helper the search path cannot resolve makes
execution fail with the tool-not-found error, with nothing spawned and
nothing printed — escalation is never skipped. The `hcmd` and `hau`
hypotheses confine the statement to the inputs on which this embedding is
exact: outside them the source fails even earlier — `shlex.split` raises
`ValueError` on a malformed string (line 47) and `get_uid`/`get_gid` fail
for an unknown user (lines 57-58) — while the embedding's total
tokenizer and identity resolver would proceed. -/
theorem exec_tool_not_found (env : Env) (cmd : Cmd)
    (detach capture_output check dry_run verbose : Bool)
    (ns_pid : Option Nat) (wd : Option String) (e : EscalateKind) (as_user : Option String)
    (passthrough : Bool)
    (hv : (detach && capture_output) = false)
    (hcmd : cmdTokenizes cmd = true)
    (hau : ns_pid = none ∨ as_user = none)
    (hw : env.which e.progName = none) :
    _exec_cmd env cmd detach capture_output check dry_run verbose ns_pid wd (some e) as_user passthrough
      = ⟨.error (.toolNotFound e.progName), [], []⟩ := by
  simp [_exec_cmd, assembledArgs, hv, hw]

/-- Witness for the amended C9 at a concrete environment. -/
theorem exec_tool_not_found_witness :
    _exec_cmd envNoTool (.args ["ls"]) false false false false false none none (some .sudo) none false
      = ⟨.error (.toolNotFound "sudo"), [], []⟩ :=
  exec_tool_not_found envNoTool (.args ["ls"]) false false false false false none none .sudo none
    false rfl rfl (Or.inl rfl) rfl

/-- Boolean test for the defensive internal-consistency failure: the
`RuntimeError` raised when the runtime type of the executor's result does
not match what the wrapper expected. -/
def isUnexpectedOutcomeErr {α : Type} : Except ExecErr α → Bool
  | .error (.unexpectedOutcome _) => true
  | _ => false

/-- Assembly can only fail by failing to resolve the escalation helper. -/
theorem assembledArgs_error_shape (env : Env) (cmd : Cmd) (ns_pid : Option Nat)
    (wd : Option String) (escalate : Escalate) (as_user : Option String) (e : ExecErr)
    (h : assembledArgs env cmd ns_pid wd escalate as_user = .error e) :
    ∃ t, e = ExecErr.toolNotFound t := by
  cases escalate with
  | none => simp [assembledArgs] at h
  | some k =>
    cases hw : env.which k.progName with
    | none =>
      simp [assembledArgs, hw] at h
      exact ⟨k.progName, h.symm⟩
    | some helper => simp [assembledArgs, hw] at h

/-- A foreground (`detach=False`), non-dry-run execution wrapped in the
`CompletedProcess` type check never produces the defensive error: the
executor returns a `CompletedProcess` or raises one of its own errors. -/
theorem expectCompleted_fg_not_unexpected (env : Env) (cmd : Cmd)
    (capture_output check verbose : Bool) (ns_pid : Option Nat) (wd : Option String)
    (escalate : Escalate) (as_user : Option String) (passthrough : Bool)
    {α : Type} (f : Int → Option String → α) :
    isUnexpectedOutcomeErr (expectCompleted f
      (_exec_cmd env cmd false capture_output check false verbose ns_pid wd escalate as_user
        passthrough)).result = false := by
  cases ha : assembledArgs env cmd ns_pid wd escalate as_user with
  | error e =>
    obtain ⟨t, rfl⟩ := assembledArgs_error_shape env cmd ns_pid wd escalate as_user e ha
    simp [_exec_cmd, expectCompleted, ha, isUnexpectedOutcomeErr]
  | ok args =>
    simp only [_exec_cmd, expectCompleted, ha, Bool.false_and, Bool.false_eq_true, if_false]
    by_cases hc : (check && (env.runFg args).1 != 0) = true
    · simp [hc, isUnexpectedOutcomeErr]
    · simp [hc, isUnexpectedOutcomeErr]

/-- A detached (`detach=True`), non-dry-run execution wrapped in the
`Popen` type check never produces the defensive error. -/
theorem detach_not_unexpected (env : Env) (cmd : Cmd) (verbose : Bool)
    (escalate : Escalate) (ns : Option NSInfo) (as_user : Option String) :
    isUnexpectedOutcomeErr (detach env cmd false verbose escalate ns as_user).result = false := by
  unfold detach
  cases ha : assembledArgs env cmd (handle_ns env ns escalate).1 (some env.cwd)
      (handle_ns env ns escalate).2 as_user with
  | error e =>
    obtain ⟨t, rfl⟩ := assembledArgs_error_shape _ _ _ _ _ _ e ha
    simp [_exec_cmd, ha, isUnexpectedOutcomeErr]
  | ok args => simp [_exec_cmd, ha, isUnexpectedOutcomeErr]

/-- C4 counterexample: a dry-run call through `run_check_output` (and
through `detach`) makes the executor return the no-process outcome `None`,
which fails the wrappers' runtime type check, so the defensive
`RuntimeError` branch is reached. -/
theorem dry_run_unexpected_counterexample :
    (run_check_output env0 (.args ["ls"]) true false none none none).result
      = .error (.unexpectedOutcome "Expected CompletedProcess")
    ∧ (detach env0 (.args ["ls"]) true false none none none).result
      = .error (.unexpectedOutcome "Expected Popen") := ⟨rfl, rfl⟩

/-- C4 amended: for every non-dry-run call to the five public wrappers,
the defensive internal-consistency branch is unreachable — the executor's
outcome always matches the runtime type the wrapper expects; with
`dry_run` set the executor returns `None` and every one of these wrappers
hits that branch instead. -/
theorem wrappers_outcome_matches_mode (env : Env) (cmd : Cmd) (verbose : Bool)
    (escalate : Escalate) (ns : Option NSInfo) (as_user : Option String) :
    isUnexpectedOutcomeErr (run_check_output env cmd false verbose escalate ns as_user).result = false
    ∧ isUnexpectedOutcomeErr (run_code_output env cmd false verbose escalate ns as_user).result = false
    ∧ isUnexpectedOutcomeErr (run_check_code env cmd false verbose escalate ns as_user).result = false
    ∧ isUnexpectedOutcomeErr (run_code_passthrough env cmd false verbose escalate ns as_user).result = false
    ∧ isUnexpectedOutcomeErr (detach env cmd false verbose escalate ns as_user).result = false :=
  ⟨expectCompleted_fg_not_unexpected env cmd true true verbose (handle_ns env ns escalate).1
      (some env.cwd) (handle_ns env ns escalate).2 as_user false (fun _ out => out),
    expectCompleted_fg_not_unexpected env cmd true true verbose (handle_ns env ns escalate).1
      (some env.cwd) (handle_ns env ns escalate).2 as_user false (fun rc out => (rc, out)),
    expectCompleted_fg_not_unexpected env cmd false true verbose (handle_ns env ns escalate).1
      (some env.cwd) (handle_ns env ns escalate).2 as_user false (fun rc _ => rc),
    expectCompleted_fg_not_unexpected env cmd false false verbose (handle_ns env ns escalate).1
      (some env.cwd) (handle_ns env ns escalate).2 as_user true (fun rc _ => rc),
    detach_not_unexpected env cmd verbose escalate ns as_user⟩

/-- An exit-code-checked foreground execution that returns normally can
only have seen exit code 0: a non-zero code raises `CalledProcessError`. -/
theorem fg_check_ok_zero (env : Env) (cmd : Cmd) (capture_output verbose : Bool)
    (ns_pid : Option Nat) (wd : Option String) (escalate : Escalate) (as_user : Option String)
    (passthrough : Bool) {α : Type} (f : Int → Option String → α) (a : α)
    (h : (expectCompleted f (_exec_cmd env cmd false capture_output true false verbose ns_pid wd
      escalate as_user passthrough)).result = .ok a) :
    ∃ out, a = f 0 out := by
  cases ha : assembledArgs env cmd ns_pid wd escalate as_user with
  | error e => simp [_exec_cmd, expectCompleted, ha] at h
  | ok args =>
    simp only [_exec_cmd, expectCompleted, ha, Bool.false_and, Bool.false_eq_true, if_false] at h
    by_cases hc : (env.runFg args).1 = 0
    · rw [hc] at h
      simp at h
      exact ⟨if capture_output = true then some (env.runFg args).2 else none, h.symm⟩
    · simp [hc] at h

/-- C10: a non-dry-run call to `run_check_code` or `run_code_output` that
returns normally always reports exit code 0 — `check=True` turns every
non-zero child exit into a raised `CalledProcessError`, so a non-zero code
is never observable through these return values. -/
theorem check_wrappers_zero_exit (env : Env) (cmd : Cmd) (verbose : Bool)
    (escalate : Escalate) (ns : Option NSInfo) (as_user : Option String)
    (rc : Int) (out : Option String) :
    ((run_check_code env cmd false verbose escalate ns as_user).result = .ok rc → rc = 0)
    ∧ ((run_code_output env cmd false verbose escalate ns as_user).result = .ok (rc, out) →
        rc = 0) := by
  constructor
  · intro h
    obtain ⟨o, ho⟩ := fg_check_ok_zero env cmd false verbose (handle_ns env ns escalate).1
      (some env.cwd) (handle_ns env ns escalate).2 as_user false (fun rc _ => rc) rc h
    exact ho
  · intro h
    obtain ⟨o, ho⟩ := fg_check_ok_zero env cmd true verbose (handle_ns env ns escalate).1
      (some env.cwd) (handle_ns env ns escalate).2 as_user false (fun rc out => (rc, out))
      (rc, out) h
    exact congrArg Prod.fst ho

/-- Witness for C10: in a benign environment the checked wrappers do
return normally, and the theorem then forces the returned code to be 0. -/
theorem check_wrappers_zero_exit_witness :
    (run_check_code env0 (.args ["ls"]) false false none none none).result = .ok 0
    ∧ ((run_check_code env0 (.args ["ls"]) false false none none none).result = .ok 0 →
        (0 : Int) = 0) :=
  ⟨rfl, (check_wrappers_zero_exit env0 (.args ["ls"]) false none none none 0 none).1⟩

/-- C5: once `detach_and_check` has a live handle, the grace-period wait
decides everything: a process that exits inside the window — with any
code, 0 included — turns into the immediate-exit failure carrying that
code, and a wait that times out returns the live handle as success. -/
theorem detach_and_check_grace (env : Env) (cmd : Cmd) (verbose : Bool)
    (escalate : Escalate) (ns : Option NSInfo) (as_user : Option String) (h : Popen)
    (hd : (detach env cmd false verbose escalate ns as_user).result = .ok h) :
    (∀ rc : Int, env.waitOutcome = some rc →
      (detach_and_check env cmd false verbose escalate ns as_user).result
        = .error (.immediateExit rc))
    ∧ (env.waitOutcome = none →
      (detach_and_check env cmd false verbose escalate ns as_user).result = .ok h) := by
  constructor
  · intro rc hrc
    simp [detach_and_check, hd, hrc]
  · intro hn
    simp [detach_and_check, hd, hn]

/-- Witness for C5: a detached process exiting with code 0 inside the
window still counts as an immediate-exit failure. -/
theorem detach_and_check_grace_witness :
    (detach_and_check envWait0 (.args ["sleep", "5"]) false false none none none).result
      = .error (.immediateExit 0) :=
  (detach_and_check_grace envWait0 (.args ["sleep", "5"]) false none none none
    ⟨["sleep", "5"]⟩ rfl).1 0 rfl

/-- A bounded root with no process-table entry yields no leaves. -/
theorem find_bottom_children_gone (tbl : ProcTable) (pid n : Nat)
    (hb : Bounded tbl pid n) (h : tbl pid = none) :
    find_bottom_children tbl n pid = [] := by
  cases hb with
  | gone pid n h2 => simp [find_bottom_children, h]
  | leaf pid n h2 => rw [h] at h2; exact Option.noConfusion h2
  | node pid n c cs h2 hl => rw [h] at h2; exact Option.noConfusion h2

/-- A bounded childless root is itself the sole leaf. -/
theorem find_bottom_children_leaf (tbl : ProcTable) (pid n : Nat)
    (hb : Bounded tbl pid n) (h : tbl pid = some []) :
    find_bottom_children tbl n pid = [pid] := by
  cases hb with
  | gone pid n h2 => rw [h] at h2; exact Option.noConfusion h2
  | leaf pid n h2 => simp [find_bottom_children, h]
  | node pid n c cs h2 hl =>
    rw [h] at h2
    injection h2 with h2
    exact List.noConfusion h2

/-- Membership correctness of the walker: with enough fuel, the returned
pids are exactly the leaf descendants in the sense of `LeafDesc`. -/
theorem find_bottom_children_mem (tbl : ProcTable) (pid n : Nat)
    (hb : Bounded tbl pid n) :
    ∀ p, p ∈ find_bottom_children tbl n pid ↔ LeafDesc tbl pid p := by
  induction hb with
  | gone pid n h =>
    intro p
    simp only [find_bottom_children, h]
    constructor
    · intro hp; exact absurd hp (List.not_mem_nil p)
    · intro hld
      cases hld with
      | self _ h2 => rw [h] at h2; exact Option.noConfusion h2
      | child _ _ l c h2 hc hp => rw [h] at h2; exact Option.noConfusion h2
  | leaf pid n h =>
    intro p
    simp only [find_bottom_children, h]
    constructor
    · intro hp
      rw [List.mem_singleton] at hp
      subst hp
      exact LeafDesc.self p h
    · intro hld
      cases hld with
      | self _ h2 => exact List.mem_singleton.mpr rfl
      | child _ _ l c h2 hc hp =>
        rw [h] at h2
        injection h2 with h2
        subst h2
        exact absurd hc (List.not_mem_nil c)
  | node pid n c cs h hl ih =>
    intro p
    simp only [find_bottom_children, h]
    rw [List.mem_flatMap]
    constructor
    · rintro ⟨d, hd, hp⟩
      exact LeafDesc.child pid p (c :: cs) d h hd ((ih d hd p).mp hp)
    · intro hld
      cases hld with
      | self _ h2 =>
        rw [h] at h2
        injection h2 with h2
        exact List.noConfusion h2.symm
      | child _ _ l d h2 hd hp =>
        rw [h] at h2
        injection h2 with h2
        subst h2
        exact ⟨d, hd, (ih d hd p).mpr hp⟩

/-- C6: given fuel covering the tree depth, `find_bottom_children` returns
exactly the leaf (childless) descendants of the root: the root itself
exactly when it has no children; for a root with two childless children,
both children and not the root; and for a pid that cannot be inspected
(vanished or permission-denied), the empty result. -/
theorem find_bottom_children_spec (tbl : ProcTable) (pid n : Nat)
    (hb : Bounded tbl pid n) :
    (∀ p, p ∈ find_bottom_children tbl n pid ↔ LeafDesc tbl pid p)
    ∧ (tbl pid = some [] → find_bottom_children tbl n pid = [pid])
    ∧ (tbl pid = none → find_bottom_children tbl n pid = [])
    ∧ (∀ c1 c2, tbl pid = some [c1, c2] → tbl c1 = some [] → tbl c2 = some [] →
        find_bottom_children tbl n pid = [c1, c2]) := by
  refine ⟨find_bottom_children_mem tbl pid n hb, find_bottom_children_leaf tbl pid n hb,
    find_bottom_children_gone tbl pid n hb, ?_⟩
  intro c1 c2 h h1 h2
  cases hb with
  | gone pid n h3 => rw [h] at h3; exact Option.noConfusion h3
  | leaf pid n h3 =>
    rw [h] at h3
    injection h3 with h3
    exact List.noConfusion h3
  | node pid n c cs h3 hl =>
    rw [h] at h3
    injection h3 with h3
    injection h3 with hc hcs
    subst hc
    subst hcs
    have e1 : find_bottom_children tbl n c1 = [c1] :=
      find_bottom_children_leaf tbl c1 n (hl c1 (by simp)) h1
    have e2 : find_bottom_children tbl n c2 = [c2] :=
      find_bottom_children_leaf tbl c2 n (hl c2 (by simp)) h2
    simp [find_bottom_children, h, e1, e2]

/-- Fixture process table: pid 1 has the two childless children 2 and 3;
every other pid has no entry. -/
def tbl0 : ProcTable := fun p =>
  if p = 1 then some [2, 3] else if p = 2 then some [] else if p = 3 then some [] else none

/-- Witness for C6 on `tbl0`: the walk from the root returns exactly the
two childless children, excluding the root. -/
theorem find_bottom_children_spec_witness :
    find_bottom_children tbl0 2 1 = [2, 3] := by
  have hb : Bounded tbl0 1 2 := by
    refine Bounded.node 1 1 2 [3] rfl ?_
    intro d hd
    rcases List.mem_cons.mp hd with rfl | hd2
    · exact Bounded.leaf 2 0 rfl
    · rcases List.mem_cons.mp hd2 with rfl | hd3
      · exact Bounded.leaf 3 0 rfl
      · exact absurd hd3 (List.not_mem_nil d)
  exact (find_bottom_children_spec tbl0 1 2 hb).2.2.2 2 3 rfl rfl rfl

/-- Fixture probe environment: no process-table entries at all. -/
def probeEmpty : ProbeEnv where
  procPathExists := fun _ => false
  psutilOk := fun _ => false
  isRunning := fun _ => false

/-- Fixture probe environment: every pid has a live, running entry. -/
def probeLive : ProbeEnv where
  procPathExists := fun _ => true
  psutilOk := fun _ => true
  isRunning := fun _ => true

/-- C7 counterexample: for a pid with no `/proc` entry, `process_exists`
falls off the end of the function and returns `None`, not `False` — the
value is falsy but it is not the boolean the claim promises. -/
theorem process_exists_missing_entry_counterexample :
    probeEmpty.procPathExists 7 = false
      ∧ process_exists probeEmpty 7 = none
      ∧ process_exists probeEmpty 7 ≠ some false := by
  refine ⟨rfl, rfl, ?_⟩
  intro h
  exact Option.noConfusion h

/-- C7 amended: `process_exists` returns `True` exactly when the pid has a
`/proc` entry, the `psutil` lookup succeeds and the state check reports it
running; an entry whose lookup raises `NoSuchProcess` yields `False`; and
a pid with no `/proc` entry yields Python `None` (falsy, but not `False`)
via the implicit return — it never raises. -/
theorem process_exists_spec (e : ProbeEnv) (pid : Nat) :
    (process_exists e pid = some true
      ↔ e.procPathExists pid = true ∧ e.psutilOk pid = true ∧ e.isRunning pid = true)
    ∧ (e.procPathExists pid = false → process_exists e pid = none)
    ∧ (e.procPathExists pid = true → e.psutilOk pid = false →
        process_exists e pid = some false) := by
  cases h1 : e.procPathExists pid <;> cases h2 : e.psutilOk pid <;>
    cases h3 : e.isRunning pid <;> simp [process_exists, h1, h2, h3]

/-- Witness for the amended C7: a live entry is reported as running. -/
theorem process_exists_spec_witness :
    process_exists probeLive 5 = some true :=
  (process_exists_spec probeLive 5).1.mpr ⟨rfl, rfl, rfl⟩
